import Mathlib

/-
Verification development for the buddard live-projection system.

The repository owns two variants of the projection pipeline:
  * the refined pipeline under `src/lib/`  (modelled in namespace `Lib`), and
  * the legacy pipeline at the top level of `src/` (modelled in namespace `Legacy`).

Python floats are modelled as real numbers; integer quantities (periods, foul
counts) as integers.  Each definition below is a direct transcription of the
corresponding Python function, with the source file noted in its doc comment.
-/

namespace Buddard

/-- Constants from `src/constants.py` (`BUFFER_PTS`, lines 28-35) used by the
trigger evaluators of both pipelines. -/
def BUFFER_PTS : ℝ := 1.0

/-- Constant `BUFFER_REB` from `src/constants.py`. -/
def BUFFER_REB : ℝ := 0.5

/-- Constant `BUFFER_AST` from `src/constants.py`. -/
def BUFFER_AST : ℝ := 0.5

/-- Constant `SIGMA_MULTIPLIER` from `src/constants.py` (symmetric interval
multiplier of the legacy pipeline). -/
def SIGMA_MULTIPLIER : ℝ := 1.5

namespace Lib

namespace PredictionEngine

/-- `PredictionEngine.calculate_performance_factor` from
`src/lib/prediction_engine.py` lines 5-13: ratio of observed pace to baseline
pace, or exactly 1.0 when the baseline pace is zero. -/
noncomputable def calculate_performance_factor (current_pace baseline_pace : ℝ) : ℝ :=
  if baseline_pace = 0 then 1.0 else current_pace / baseline_pace

/-- `PredictionEngine.calculate_dynamic_remaining_minutes` from
`src/lib/prediction_engine.py` lines 15-65.  The sequential multiplicative
updates of the Python local `modifier` are rendered as the chain
`m1, m2, m3, m4`; everything else is verbatim. -/
noncomputable def calculate_dynamic_remaining_minutes
    (avg_minutes current_minutes : ℝ) (current_fouls : ℤ) (score_diff : ℝ)
    (period : ℤ) (performance_factor : ℝ) : ℝ :=
  let base_remaining := max 0 (avg_minutes - current_minutes)
  if base_remaining = 0 then 0
  else
    let m1 : ℝ :=
      if period = 1 ∧ 2 ≤ current_fouls then 1 * 0.85
      else if period = 2 ∧ 3 ≤ current_fouls then 1 * 0.80
      else if period = 3 ∧ 4 ≤ current_fouls then 1 * 0.75
      else 1
    let m2 : ℝ := if 5 ≤ current_fouls then m1 * 0.50 else m1
    let m3 : ℝ := if period = 3 ∧ 20 < |score_diff| then m2 * 0.85 else m2
    let m4 : ℝ := if 3 ≤ period ∧ 25 < |score_diff| then m3 * 0.70 else m3
    let safe_perf : ℝ := max 0.5 (min performance_factor 2.0)
    let hot_hand_mod : ℝ := 1.0 + 0.2 * Real.log safe_perf
    let expected_remaining := base_remaining * m4 * hot_hand_mod
    let max_possible : ℝ := 48.0 - current_minutes
    min expected_remaining max_possible

/-- `PredictionEngine.calculate_pfs` from `src/lib/prediction_engine.py`
lines 67-77 ("Bank and Burn"): current value plus baseline pace times expected
remaining minutes. -/
noncomputable def calculate_pfs (current_stat baseline_pace expected_remaining_min : ℝ) : ℝ :=
  current_stat + baseline_pace * expected_remaining_min

/-- `PredictionEngine.get_prediction_range` from `src/lib/prediction_engine.py`
lines 79-110: the refined asymmetric interval (1.0 sigma below, 2.0 sigma
above), variance decay `sqrt(remaining_pct)` with no floor, lower bound
clamped to `current_stat` and upper bound clamped to the lower bound. -/
noncomputable def get_prediction_range
    (pfs sigma minutes_played avg_minutes current_stat : ℝ) : ℝ × ℝ × ℝ :=
  let sigma1 := if sigma = 0 then pfs * 0.2 else sigma
  let remaining_pct :=
    if avg_minutes > 0 then max 0 ((avg_minutes - minutes_played) / avg_minutes) else 0
  let decay_factor := Real.sqrt remaining_pct
  let adjusted_sigma := sigma1 * decay_factor
  let low0 := pfs - 1.0 * adjusted_sigma
  let high0 := pfs + 2.0 * adjusted_sigma
  let low := max low0 current_stat
  let high := max high0 low
  (low, high, adjusted_sigma)

/-- The period-specific foul-trouble factor of
`calculate_dynamic_remaining_minutes` (`src/lib/prediction_engine.py`
lines 30-39): the `if/elif` chain over period and foul count. -/
noncomputable def period_foul_modifier (period current_fouls : ℤ) : ℝ :=
  if period = 1 ∧ 2 ≤ current_fouls then 0.85
  else if period = 2 ∧ 3 ≤ current_fouls then 0.80
  else if period = 3 ∧ 4 ≤ current_fouls then 0.75
  else 1

/-- The blowout factor of `calculate_dynamic_remaining_minutes`
(`src/lib/prediction_engine.py` lines 44-51): two independent reductions for
lopsided scores late in the contest. -/
noncomputable def blowout_modifier (period : ℤ) (score_diff : ℝ) : ℝ :=
  (if period = 3 ∧ 20 < |score_diff| then (0.85 : ℝ) else 1) *
  (if 3 ≤ period ∧ 25 < |score_diff| then (0.70 : ℝ) else 1)

end PredictionEngine

end Lib

namespace Legacy

namespace PredictionEngine

/-- `PredictionEngine.calculate_alpha` from `src/prediction_engine.py`
lines 5-28: quadratic trust weight with the averaging denominator floored at
10 minutes and the result capped at 1. -/
noncomputable def calculate_alpha (minutes_played avg_minutes : ℝ) : ℝ :=
  let safe_avg_min := max 10 avg_minutes
  let progress := minutes_played / safe_avg_min
  if progress > 1.0 then 1.0 else progress ^ 2

/-- `PredictionEngine.calculate_pfs` from `src/prediction_engine.py`
lines 30-40: blended-pace projection with an explicit fallback to pure
baseline pace when `current_min <= 0`. -/
noncomputable def calculate_pfs
    (current_stat current_min baseline_pace remaining_min alpha : ℝ) : ℝ :=
  if current_min ≤ 0 then current_stat + baseline_pace * remaining_min
  else
    let current_pace := current_stat / current_min
    let weighted_pace := alpha * current_pace + (1 - alpha) * baseline_pace
    current_stat + weighted_pace * remaining_min

/-- `PredictionEngine.get_prediction_range` from `src/prediction_engine.py`
lines 42-63: the legacy symmetric interval using `SIGMA_MULTIPLIER`, with the
variance-decay factor floored at 0.1 and no clamp to the current value. -/
noncomputable def get_prediction_range
    (pfs sigma minutes_played avg_minutes : ℝ) : ℝ × ℝ × ℝ :=
  let sigma1 := if sigma = 0 then pfs * 0.2 else sigma
  let remaining_pct :=
    if avg_minutes > 0 then max 0 ((avg_minutes - minutes_played) / avg_minutes) else 0
  let decay_factor := max 0.1 (Real.sqrt remaining_pct)
  let adjusted_sigma := sigma1 * decay_factor
  let low := pfs - SIGMA_MULTIPLIER * adjusted_sigma
  let high := pfs + SIGMA_MULTIPLIER * adjusted_sigma
  (low, high, adjusted_sigma)

end PredictionEngine

namespace Poller

/-- The inline alpha of `Poller.process_player` from `src/poller.py`
lines 129-135: linear ramp over the participant's average minutes (floored at
10), capped at 0.95. -/
noncomputable def alpha (minutes_played avg_minutes : ℝ) : ℝ :=
  let safe_avg_min := max 10 avg_minutes
  min 0.95 (minutes_played / safe_avg_min)

/-- `Poller._calculate_pfs` from `src/poller.py` lines 223-228: the same
blended-pace projection, but with no guard on `current_min` — the observed
pace `current_stat / current_min` is always formed. -/
noncomputable def calculate_pfs
    (current_stat current_min baseline_pace remaining_min alpha : ℝ) : ℝ :=
  let current_pace := current_stat / current_min
  let weighted_pace := alpha * current_pace + (1 - alpha) * baseline_pace
  current_stat + weighted_pace * remaining_min

end Poller

end Legacy

/-- The per-evaluation arguments of `_check_trigger` in both pollers
(`src/lib/poller.py` lines 168-182, `src/poller.py` lines 230-243).  The
reasoning-string inputs (`flags`, and the `alpha`/`perf_factor` used only for
display) are omitted: they never influence the trigger decision or the dedup
state. -/
structure CheckInput where
  player_id : String
  stat_type : String
  pfs : ℝ
  sigma : ℝ
  current_val : ℝ
  minutes : ℝ
  period : ℤ
  season_avg : ℝ
  player_avg_minutes : ℝ

/-- One `notifier.send_alert` call: the dedup key of the firing evaluation,
the direction string, and the projected range passed along. -/
structure Emission where
  key : String
  direction : String
  low : ℝ
  high : ℝ

/-- The dedup key `f"{player_id}_{stat_type}_{period}"` built in both
pollers (`src/lib/poller.py` line 204, `src/poller.py` line 281). -/
def alert_key (player_id stat_type : String) (period : ℤ) : String :=
  player_id ++ "_" ++ stat_type ++ "_" ++ toString period

namespace Lib

namespace Poller

/-- `Poller._check_trigger` from `src/lib/poller.py` lines 168-228 (refined
pipeline), under normal delivery semantics (the notifier call returns).
Returns the updated dedup set and the emitted alert, if any.  The debug print
at lines 206-209 has no effect on state and is omitted. -/
noncomputable def check_trigger (alerted : Finset String) (inp : CheckInput) :
    Finset String × Option Emission :=
  let r := Lib.PredictionEngine.get_prediction_range
    inp.pfs inp.sigma inp.minutes inp.player_avg_minutes inp.current_val
  let low := r.1
  let high := r.2.1
  let threshold0 := inp.season_avg * 0.8
  let tb : ℝ × ℝ :=
    if inp.stat_type = "PTS" then (max threshold0 7, BUFFER_PTS)
    else if inp.stat_type = "REB" then (max threshold0 3, BUFFER_REB)
    else if inp.stat_type = "AST" then (max threshold0 3, BUFFER_AST)
    else (threshold0, 0)
  let key := alert_key inp.player_id inp.stat_type inp.period
  if key ∈ alerted then (alerted, none)
  else if low > tb.1 + tb.2 then
    (insert key alerted, some ⟨key, "HIGH", low, high⟩)
  else if high < tb.1 - tb.2 ∧ inp.minutes > inp.player_avg_minutes * 0.4 then
    (insert key alerted, some ⟨key, "LOW", low, high⟩)
  else (alerted, none)

/-- `Poller._check_trigger` from `src/lib/poller.py` under exception-aware
delivery semantics: `deliver_ok = false` means `notifier.send_alert` raises.
In the source the `alerted_players.add` on lines 219 and 228 runs only AFTER
the notifier call of lines 218 and 227, so a raising call skips it and the
dedup set is left unchanged.  The second component records the attempted
notifier call. -/
noncomputable def check_trigger_exc (deliver_ok : Bool) (alerted : Finset String)
    (inp : CheckInput) : Finset String × Option Emission :=
  let r := Lib.PredictionEngine.get_prediction_range
    inp.pfs inp.sigma inp.minutes inp.player_avg_minutes inp.current_val
  let low := r.1
  let high := r.2.1
  let threshold0 := inp.season_avg * 0.8
  let tb : ℝ × ℝ :=
    if inp.stat_type = "PTS" then (max threshold0 7, BUFFER_PTS)
    else if inp.stat_type = "REB" then (max threshold0 3, BUFFER_REB)
    else if inp.stat_type = "AST" then (max threshold0 3, BUFFER_AST)
    else (threshold0, 0)
  let key := alert_key inp.player_id inp.stat_type inp.period
  if key ∈ alerted then (alerted, none)
  else if low > tb.1 + tb.2 then
    (if deliver_ok then insert key alerted else alerted, some ⟨key, "HIGH", low, high⟩)
  else if high < tb.1 - tb.2 ∧ inp.minutes > inp.player_avg_minutes * 0.4 then
    (if deliver_ok then insert key alerted else alerted, some ⟨key, "LOW", low, high⟩)
  else (alerted, none)

end Poller

end Lib

namespace Legacy

namespace Poller

/-- `Poller._check_trigger` from `src/poller.py` lines 230-307 (legacy
pipeline): the symmetric range of lines 245-262 is exactly the body of
`Legacy.PredictionEngine.get_prediction_range`; there is a HIGH branch only.
The debug print at lines 283-286 has no effect on state and is omitted. -/
noncomputable def check_trigger (alerted : Finset String) (inp : CheckInput) :
    Finset String × Option Emission :=
  let r := Legacy.PredictionEngine.get_prediction_range
    inp.pfs inp.sigma inp.minutes inp.player_avg_minutes
  let low := r.1
  let high := r.2.1
  let dynamic_threshold := inp.season_avg * 0.8
  let tb : ℝ × ℝ :=
    if inp.stat_type = "PTS" then (max dynamic_threshold 7, BUFFER_PTS)
    else if inp.stat_type = "REB" then (max dynamic_threshold 3, BUFFER_REB)
    else if inp.stat_type = "AST" then (max dynamic_threshold 3, BUFFER_AST)
    else (999, 0)
  let key := alert_key inp.player_id inp.stat_type inp.period
  if key ∈ alerted then (alerted, none)
  else if low > tb.1 + tb.2 then
    (insert key alerted, some ⟨key, "HIGH", low, high⟩)
  else (alerted, none)

end Poller

end Legacy

/-- A sequence of trigger evaluations against one Monitor's dedup set:
fold an arbitrary `_check_trigger` step over a list of inputs, collecting the
emitted alerts in order. -/
def run_triggers (step : Finset String → CheckInput → Finset String × Option Emission) :
    Finset String → List CheckInput → Finset String × List Emission
  | s, [] => (s, [])
  | s, inp :: rest =>
    let p := step s inp
    let r := run_triggers step p.1 rest
    (r.1, p.2.toList ++ r.2)

/-- A `_check_trigger` step respects the dedup discipline: the set never
shrinks, and an emission happens only for a key not yet in the set, which the
step then inserts. -/
def StepOk (step : Finset String → CheckInput → Finset String × Option Emission) : Prop :=
  ∀ s inp, s ⊆ (step s inp).1 ∧
    ∀ e, (step s inp).2 = some e → e.key ∉ s ∧ (step s inp).1 = insert e.key s

/-- The static floors applied to the dynamic threshold in `_check_trigger`
(`src/lib/poller.py` lines 192-200 and `src/poller.py` lines 267-275):
7 points, 3 rebounds, 3 assists. -/
def static_floor (stat_type : String) : ℝ :=
  if stat_type = "PTS" then 7
  else if stat_type = "REB" then 3
  else if stat_type = "AST" then 3
  else 0

/-- The per-statistic confirmation buffer chosen in `_check_trigger`
(`src/lib/poller.py` lines 192-202), from `src/constants.py`. -/
def buffer_of (stat_type : String) : ℝ :=
  if stat_type = "PTS" then BUFFER_PTS
  else if stat_type = "REB" then BUFFER_REB
  else if stat_type = "AST" then BUFFER_AST
  else 0

/-! ## Helper lemmas -/

/-- The hot-hand modifier `1 + 0.2·ln(clamp(pf, 0.5, 2))` is strictly
positive: the clamp bounds the logarithm below by `-ln 2 ≥ -1`. -/
theorem hot_hand_mod_pos (pf : ℝ) :
    0 < 1.0 + 0.2 * Real.log (max 0.5 (min pf 2.0)) := by
  have h1 : (0.5 : ℝ) ≤ max 0.5 (min pf 2.0) := le_max_left _ _
  have hlog : Real.log 0.5 ≤ Real.log (max 0.5 (min pf 2.0)) :=
    Real.log_le_log (by norm_num) h1
  have h2 : Real.log 0.5 = -Real.log 2 := by
    rw [show (0.5 : ℝ) = 2⁻¹ by norm_num, Real.log_inv]
  have h3 : Real.log 2 ≤ 1 := by
    have := Real.log_le_sub_one_of_pos (x := 2) (by norm_num)
    linarith
  nlinarith

/-- `period_foul_modifier` only takes the values 0.85, 0.80, 0.75, 1. -/
theorem period_foul_modifier_pos (period current_fouls : ℤ) :
    0 < Lib.PredictionEngine.period_foul_modifier period current_fouls := by
  unfold Lib.PredictionEngine.period_foul_modifier
  split_ifs <;> norm_num

/-- `blowout_modifier` only takes the values 1, 0.85, 0.70, 0.595. -/
theorem blowout_modifier_pos (period : ℤ) (score_diff : ℝ) :
    0 < Lib.PredictionEngine.blowout_modifier period score_diff := by
  unfold Lib.PredictionEngine.blowout_modifier
  split_ifs <;> norm_num

set_option maxHeartbeats 1000000 in
/-- The sequential multiplicative updates of the Python `modifier` variable in
`calculate_dynamic_remaining_minutes` factor into the period-specific foul
modifier, the critical-foul factor, and the blowout modifier. -/
theorem remaining_minutes_eq (avg_minutes current_minutes : ℝ) (current_fouls : ℤ)
    (score_diff : ℝ) (period : ℤ) (performance_factor : ℝ) :
    Lib.PredictionEngine.calculate_dynamic_remaining_minutes avg_minutes
      current_minutes current_fouls score_diff period performance_factor =
    if max 0 (avg_minutes - current_minutes) = 0 then 0
    else
      min (max 0 (avg_minutes - current_minutes) *
          (Lib.PredictionEngine.period_foul_modifier period current_fouls *
            (if 5 ≤ current_fouls then (0.5 : ℝ) else 1) *
            Lib.PredictionEngine.blowout_modifier period score_diff) *
          (1.0 + 0.2 * Real.log (max 0.5 (min performance_factor 2.0))))
        (48.0 - current_minutes) := by
  simp only [Lib.PredictionEngine.calculate_dynamic_remaining_minutes,
    Lib.PredictionEngine.period_foul_modifier, Lib.PredictionEngine.blowout_modifier]
  split_ifs <;> first | rfl | (congr 1; ring)

/-! ## Claim C4 -/

/-- C4 (amended): for any expectedActiveMinutes, penaltyCount, scoreDiff,
period and performanceFactor, and any currentActiveMinutes at most the
48-minute regulation cap, `calculate_dynamic_remaining_minutes` returns a
value ≥ 0.  (For currentActiveMinutes beyond 48 the hard cap
`48 − current` is negative and is returned, see the counterexample.) -/
theorem c4_remaining_minutes_nonneg (avg_minutes current_minutes : ℝ)
    (current_fouls : ℤ) (score_diff : ℝ) (period : ℤ) (performance_factor : ℝ)
    (hcur : current_minutes ≤ 48) :
    0 ≤ Lib.PredictionEngine.calculate_dynamic_remaining_minutes avg_minutes
      current_minutes current_fouls score_diff period performance_factor := by
  rw [remaining_minutes_eq]
  split_ifs with h0 h5 <;>
    first
      | exact le_refl 0
      | exact le_min
          (mul_nonneg (mul_nonneg (le_max_left _ _)
            (mul_pos (mul_pos (period_foul_modifier_pos _ _) (by norm_num))
              (blowout_modifier_pos _ _)).le)
            (hot_hand_mod_pos _).le)
          (by linarith)

/-- C4 witness: a participant at 10 of 30 expected minutes with two fouls in
the second period never gets a negative remaining-minutes estimate. -/
theorem c4_remaining_minutes_nonneg_witness :
    0 ≤ Lib.PredictionEngine.calculate_dynamic_remaining_minutes 30 10 2 5 2 1.5 :=
  c4_remaining_minutes_nonneg 30 10 2 5 2 1.5 (by norm_num)

/-- C4 counterexample: with expectedActiveMinutes = 60 and
currentActiveMinutes = 50 ≥ 0 (no fouls, level score, period 1, neutral
performance factor) the function returns 48 − 50 = −2 < 0, so the claim's
unconditional nonnegativity fails. -/
theorem c4_negative_remaining_counterexample :
    Lib.PredictionEngine.calculate_dynamic_remaining_minutes 60 50 0 0 1 1 < 0 := by
  have hm : max 0 ((60 : ℝ) - 50) = 10 := by
    rw [show (60 : ℝ) - 50 = 10 by norm_num, max_eq_right (by norm_num : (0 : ℝ) ≤ 10)]
  have h1 : Lib.PredictionEngine.period_foul_modifier 1 0 = 1 := by
    unfold Lib.PredictionEngine.period_foul_modifier
    norm_num
  have h2 : Lib.PredictionEngine.blowout_modifier 1 0 = 1 := by
    unfold Lib.PredictionEngine.blowout_modifier
    norm_num
  have h3 : max (0.5 : ℝ) (min (1 : ℝ) 2.0) = 1 := by norm_num
  rw [remaining_minutes_eq, hm, if_neg (by norm_num : ¬ (10 : ℝ) = 0),
    if_neg (by norm_num : ¬ (5 : ℤ) ≤ 0), h1, h2, h3, Real.log_one,
    min_eq_right (by norm_num)]
  norm_num

/-! ## Claim C5 -/

/-- C5 (amended): `calculate_dynamic_remaining_minutes` returns 0 whenever
currentActiveMinutes ≥ expectedActiveMinutes; and whenever
currentActiveMinutes ≤ 48, `current + remaining` never exceeds the 48-minute
regulation duration.  (A participant already past 48 observed minutes gets
remaining 0, which leaves `current + remaining = current > 48`, see the
counterexample.) -/
theorem c5_zero_when_done_and_capped (avg_minutes current_minutes : ℝ)
    (current_fouls : ℤ) (score_diff : ℝ) (period : ℤ) (performance_factor : ℝ) :
    (avg_minutes ≤ current_minutes →
      Lib.PredictionEngine.calculate_dynamic_remaining_minutes avg_minutes
        current_minutes current_fouls score_diff period performance_factor = 0) ∧
    (current_minutes ≤ 48 →
      current_minutes +
        Lib.PredictionEngine.calculate_dynamic_remaining_minutes avg_minutes
          current_minutes current_fouls score_diff period performance_factor ≤ 48) := by
  rw [remaining_minutes_eq]
  constructor
  · intro h
    rw [if_pos (max_eq_left (by linarith : avg_minutes - current_minutes ≤ 0))]
  · intro h
    split_ifs with h0 h5 <;>
      first
        | linarith
        | exact le_trans (add_le_add_left (min_le_right _ _) _) (by linarith)

/-- C5 witness: at 35 observed minutes against a 30-minute expectation the
estimate is 0 and the capped sum stays at or below 48. -/
theorem c5_zero_when_done_and_capped_witness :
    Lib.PredictionEngine.calculate_dynamic_remaining_minutes 30 35 1 0 2 1 = 0 ∧
    (35 : ℝ) + Lib.PredictionEngine.calculate_dynamic_remaining_minutes 30 35 1 0 2 1 ≤ 48 :=
  ⟨(c5_zero_when_done_and_capped 30 35 1 0 2 1).1 (by norm_num),
   (c5_zero_when_done_and_capped 30 35 1 0 2 1).2 (by norm_num)⟩

/-- C5 counterexample: a participant with 50 observed minutes against a
40-minute expectation gets remaining 0, and `current + remaining = 50`
exceeds the 48-minute maximum, so the claim's unconditional cap fails. -/
theorem c5_cap_exceeded_counterexample :
    48 < 50 + Lib.PredictionEngine.calculate_dynamic_remaining_minutes 40 50 0 0 1 1 := by
  rw [remaining_minutes_eq,
    if_pos (max_eq_left (show (40 : ℝ) - 50 ≤ 0 by norm_num))]
  norm_num

/-! ## Claim C9 -/

/-- C9: with five or more penalties at any period (and positive base
remaining time) the critical ×0.50 reduction enters the remaining-minutes
modifier multiplicatively, compounding with — not replacing — the
period-specific foul modifier and the blowout modifier. -/
theorem c9_critical_foul_compounds (avg_minutes current_minutes : ℝ)
    (current_fouls : ℤ) (score_diff : ℝ) (period : ℤ) (performance_factor : ℝ)
    (hbase : max 0 (avg_minutes - current_minutes) ≠ 0) (h5 : 5 ≤ current_fouls) :
    Lib.PredictionEngine.calculate_dynamic_remaining_minutes avg_minutes
      current_minutes current_fouls score_diff period performance_factor =
    min (max 0 (avg_minutes - current_minutes) *
        (Lib.PredictionEngine.period_foul_modifier period current_fouls * 0.5 *
          Lib.PredictionEngine.blowout_modifier period score_diff) *
        (1.0 + 0.2 * Real.log (max 0.5 (min performance_factor 2.0))))
      (48.0 - current_minutes) := by
  rw [remaining_minutes_eq, if_neg hbase, if_pos h5]

/-- C9 witness: five fouls in period 3 at 10 of 30 expected minutes — the
factored form with the explicit ×0.5 critical reduction next to the
period-3 foul modifier. -/
theorem c9_critical_foul_compounds_witness :
    Lib.PredictionEngine.calculate_dynamic_remaining_minutes 30 10 5 0 3 1 =
    min (max 0 ((30 : ℝ) - 10) *
        (Lib.PredictionEngine.period_foul_modifier 3 5 * 0.5 *
          Lib.PredictionEngine.blowout_modifier 3 0) *
        (1.0 + 0.2 * Real.log (max 0.5 (min (1 : ℝ) 2.0))))
      (48.0 - 10) :=
  c9_critical_foul_compounds 30 10 5 0 3 1
    (by rw [show (30 : ℝ) - 10 = 20 by norm_num,
      max_eq_right (by norm_num : (0 : ℝ) ≤ 20)]; norm_num)
    (by norm_num)

/-! ## Claim C1 -/

/-- C1 (amended): in the refined asymmetric mode `get_prediction_range`
always returns bounds with `currentValue ≤ low ≤ high`.  In the legacy
symmetric mode, `low ≤ high` holds for nonnegative sigma and projection, but
the lower bound is not clamped to the current value (the legacy variant does
not even receive it), see the counterexample. -/
theorem c1_projectRange_bounds (pfs sigma minutes_played avg_minutes current_stat : ℝ)
    (hsig : 0 ≤ sigma) (hpfs : 0 ≤ pfs) :
    (current_stat ≤
        (Lib.PredictionEngine.get_prediction_range pfs sigma minutes_played
          avg_minutes current_stat).1 ∧
      (Lib.PredictionEngine.get_prediction_range pfs sigma minutes_played
          avg_minutes current_stat).1 ≤
        (Lib.PredictionEngine.get_prediction_range pfs sigma minutes_played
          avg_minutes current_stat).2.1) ∧
    (Legacy.PredictionEngine.get_prediction_range pfs sigma minutes_played
        avg_minutes).1 ≤
      (Legacy.PredictionEngine.get_prediction_range pfs sigma minutes_played
        avg_minutes).2.1 := by
  refine ⟨⟨?_, ?_⟩, ?_⟩
  · simp only [Lib.PredictionEngine.get_prediction_range]
    exact le_max_right _ _
  · simp only [Lib.PredictionEngine.get_prediction_range]
    exact le_max_right _ _
  · simp only [Legacy.PredictionEngine.get_prediction_range, SIGMA_MULTIPLIER]
    have hs1 : (0 : ℝ) ≤ (if sigma = 0 then pfs * 0.2 else sigma) := by
      split_ifs <;> nlinarith
    have hd : (0 : ℝ) ≤ max 0.1 (Real.sqrt
        (if avg_minutes > 0 then max 0 ((avg_minutes - minutes_played) / avg_minutes)
          else 0)) :=
      le_trans (by norm_num) (le_max_left _ _)
    nlinarith [mul_nonneg hs1 hd]

/-- C1 witness: refined and legacy bounds at pfs = 10, sigma = 2, 5 of 20
expected minutes, current value 3. -/
theorem c1_projectRange_bounds_witness :
    ((3 : ℝ) ≤
        (Lib.PredictionEngine.get_prediction_range 10 2 5 20 3).1 ∧
      (Lib.PredictionEngine.get_prediction_range 10 2 5 20 3).1 ≤
        (Lib.PredictionEngine.get_prediction_range 10 2 5 20 3).2.1) ∧
    (Legacy.PredictionEngine.get_prediction_range 10 2 5 20).1 ≤
      (Legacy.PredictionEngine.get_prediction_range 10 2 5 20).2.1 :=
  c1_projectRange_bounds 10 2 5 20 3 (by norm_num) (by norm_num)

/-- C1 counterexample: in the legacy symmetric mode with pfs = 10, sigma = 5
and the contest not yet started (0 of 16 expected minutes), a participant
whose accumulated value is already 10 gets `low = 10 − 1.5·5 = 2.5 < 10`, so
the claimed `low ≥ currentValue` fails in the legacy mode. -/
theorem c1_legacy_low_below_current :
    (Legacy.PredictionEngine.get_prediction_range 10 5 0 16).1 < 10 := by
  simp only [Legacy.PredictionEngine.get_prediction_range, SIGMA_MULTIPLIER]
  rw [if_neg (by norm_num : ¬ (5 : ℝ) = 0), if_pos (by norm_num : (16 : ℝ) > 0),
    show ((16 : ℝ) - 0) / 16 = 1 by norm_num,
    max_eq_right (by norm_num : (0 : ℝ) ≤ 1), Real.sqrt_one,
    max_eq_right (by norm_num : (0.1 : ℝ) ≤ 1)]
  norm_num

/-! ## Claim C6 -/

/-- C6 (amended): the engine variant of the projection calculator
(`calculate_pfs` in `src/prediction_engine.py`) falls back to the pure
baseline rate `currentValue + baselineRate · remainingMinutes` whenever
`currentActiveMinutes ≤ 0`; the legacy poller's inline variant
(`_calculate_pfs` in `src/poller.py`) performs no such fallback — its caller
skips participants with under one observed minute instead — see the
counterexample. -/
theorem c6_pfs_baseline_fallback
    (current_stat current_min baseline_pace remaining_min alpha : ℝ)
    (h : current_min ≤ 0) :
    Legacy.PredictionEngine.calculate_pfs current_stat current_min baseline_pace
      remaining_min alpha = current_stat + baseline_pace * remaining_min := by
  unfold Legacy.PredictionEngine.calculate_pfs
  rw [if_pos h]

/-- C6 witness: at zero observed minutes the engine variant projects the pure
baseline 10 + 0.5·10. -/
theorem c6_pfs_baseline_fallback_witness :
    Legacy.PredictionEngine.calculate_pfs 10 0 0.5 10 0.5 = 10 + 0.5 * 10 :=
  c6_pfs_baseline_fallback 10 0 0.5 10 0.5 (by norm_num)

/-- C6 counterexample: the legacy poller's `_calculate_pfs` evaluates the
observed rate `current_stat / current_min` even on a non-positive
denominator: at currentActiveMinutes = −1 it returns −37.5 instead of the
pure-baseline fallback 15, so the claimed fallback does not hold "regardless
of blending mode". -/
theorem c6_poller_no_fallback_counterexample :
    Legacy.Poller.calculate_pfs 10 (-1) 0.5 10 0.5 ≠ 10 + 0.5 * 10 := by
  simp only [Legacy.Poller.calculate_pfs]
  norm_num

/-! ## Claim C7 -/

/-- C7 (amended): holding pfs, minutes played, expected minutes and current
value fixed, increasing sigma over strictly positive values never decreases
the interval width `high − low`, in the refined mode and in the legacy mode.
(Increasing sigma away from 0 CAN shrink the width, because sigma = 0 is
substituted by `pfs·0.2`, see the counterexample.) -/
theorem c7_width_monotone_in_sigma
    (pfs minutes_played avg_minutes current_stat s1 s2 : ℝ)
    (h0 : 0 < s1) (h12 : s1 ≤ s2) :
    (Lib.PredictionEngine.get_prediction_range pfs s1 minutes_played avg_minutes
        current_stat).2.1 -
      (Lib.PredictionEngine.get_prediction_range pfs s1 minutes_played avg_minutes
        current_stat).1 ≤
    (Lib.PredictionEngine.get_prediction_range pfs s2 minutes_played avg_minutes
        current_stat).2.1 -
      (Lib.PredictionEngine.get_prediction_range pfs s2 minutes_played avg_minutes
        current_stat).1 ∧
    (Legacy.PredictionEngine.get_prediction_range pfs s1 minutes_played
        avg_minutes).2.1 -
      (Legacy.PredictionEngine.get_prediction_range pfs s1 minutes_played
        avg_minutes).1 ≤
    (Legacy.PredictionEngine.get_prediction_range pfs s2 minutes_played
        avg_minutes).2.1 -
      (Legacy.PredictionEngine.get_prediction_range pfs s2 minutes_played
        avg_minutes).1 := by
  have h1 : s1 ≠ 0 := h0.ne'
  have h2 : s2 ≠ 0 := (h0.trans_le h12).ne'
  constructor
  · simp only [Lib.PredictionEngine.get_prediction_range, if_neg h1, if_neg h2]
    set d := Real.sqrt
      (if avg_minutes > 0 then max 0 ((avg_minutes - minutes_played) / avg_minutes)
        else 0) with hdd
    have hdn : 0 ≤ d := Real.sqrt_nonneg _
    have ha : s1 * d ≤ s2 * d := mul_le_mul_of_nonneg_right h12 hdn
    have hl : max (pfs - 1.0 * (s2 * d)) current_stat ≤
        max (pfs - 1.0 * (s1 * d)) current_stat :=
      max_le_max (by nlinarith) (le_refl current_stat)
    have key : ∀ X L : ℝ, max X L - L = max (X - L) 0 := by
      intro X L
      rcases le_total X L with h | h
      · rw [max_eq_right h, max_eq_right (by linarith), sub_self]
      · rw [max_eq_left h, max_eq_left (by linarith)]
    rw [key, key]
    exact max_le_max (by linarith) (le_refl 0)
  · simp only [Legacy.PredictionEngine.get_prediction_range, SIGMA_MULTIPLIER,
      if_neg h1, if_neg h2]
    set d := max 0.1 (Real.sqrt
      (if avg_minutes > 0 then max 0 ((avg_minutes - minutes_played) / avg_minutes)
        else 0)) with hdd
    have hdn : (0 : ℝ) ≤ d := le_trans (by norm_num) (le_max_left _ _)
    have ha : s1 * d ≤ s2 * d := mul_le_mul_of_nonneg_right h12 hdn
    nlinarith

/-- C7 witness: widths at sigma 2 versus sigma 3, pfs = 10, 5 of 20 expected
minutes, current value 3. -/
theorem c7_width_monotone_in_sigma_witness :
    (Lib.PredictionEngine.get_prediction_range 10 2 5 20 3).2.1 -
      (Lib.PredictionEngine.get_prediction_range 10 2 5 20 3).1 ≤
    (Lib.PredictionEngine.get_prediction_range 10 3 5 20 3).2.1 -
      (Lib.PredictionEngine.get_prediction_range 10 3 5 20 3).1 ∧
    (Legacy.PredictionEngine.get_prediction_range 10 2 5 20).2.1 -
      (Legacy.PredictionEngine.get_prediction_range 10 2 5 20).1 ≤
    (Legacy.PredictionEngine.get_prediction_range 10 3 5 20).2.1 -
      (Legacy.PredictionEngine.get_prediction_range 10 3 5 20).1 :=
  c7_width_monotone_in_sigma 10 5 20 3 2 3 (by norm_num) (by norm_num)

/-- C7 counterexample: at pfs = 100 (contest not started, 30 expected
minutes, current value 0), increasing sigma from 0 to 1 shrinks the refined
interval width from 60 to 3, because sigma = 0 is first substituted by
`pfs·0.2 = 20`.  So "increasing sigma never decreases the width" fails at
sigma = 0. -/
theorem c7_sigma_zero_counterexample :
    (Lib.PredictionEngine.get_prediction_range 100 1 0 30 0).2.1 -
      (Lib.PredictionEngine.get_prediction_range 100 1 0 30 0).1 <
    (Lib.PredictionEngine.get_prediction_range 100 0 0 30 0).2.1 -
      (Lib.PredictionEngine.get_prediction_range 100 0 0 30 0).1 := by
  have e1 : Lib.PredictionEngine.get_prediction_range 100 1 0 30 0 = (99, 102, 1) := by
    norm_num [Lib.PredictionEngine.get_prediction_range, max_def, Real.sqrt_one]
  have e0 : Lib.PredictionEngine.get_prediction_range 100 0 0 30 0 = (80, 140, 20) := by
    norm_num [Lib.PredictionEngine.get_prediction_range, max_def, Real.sqrt_one]
  rw [e1, e0]
  norm_num

/-! ## Claim C10 -/

/-- C10: for minutes_played ≥ 0 the quadratic blending weight
`calculate_alpha` lies in [0, 1] and is nondecreasing in minutes_played; its
progress denominator is floored at 10 minutes; and the legacy poller's
linear alpha is capped at 0.95, so in legacy mode observed pace never fully
replaces the baseline. -/
theorem c10_alpha_properties (minutes_played minutes_played' avg_minutes : ℝ)
    (hm : 0 ≤ minutes_played) (hmm : minutes_played ≤ minutes_played') :
    (0 ≤ Legacy.PredictionEngine.calculate_alpha minutes_played avg_minutes ∧
      Legacy.PredictionEngine.calculate_alpha minutes_played avg_minutes ≤ 1) ∧
    Legacy.PredictionEngine.calculate_alpha minutes_played avg_minutes ≤
      Legacy.PredictionEngine.calculate_alpha minutes_played' avg_minutes ∧
    (avg_minutes ≤ 10 →
      Legacy.PredictionEngine.calculate_alpha minutes_played avg_minutes =
        Legacy.PredictionEngine.calculate_alpha minutes_played 10) ∧
    Legacy.Poller.alpha minutes_played avg_minutes ≤ 0.95 := by
  have hs : (0 : ℝ) < max 10 avg_minutes := lt_of_lt_of_le (by norm_num) (le_max_left _ _)
  have hp : 0 ≤ minutes_played / max 10 avg_minutes := div_nonneg hm hs.le
  have hple : minutes_played / max 10 avg_minutes ≤
      minutes_played' / max 10 avg_minutes := by gcongr
  refine ⟨?_, ?_, ?_, ?_⟩
  · simp only [Legacy.PredictionEngine.calculate_alpha]
    split_ifs with h
    · norm_num
    · exact ⟨pow_nonneg hp 2, pow_le_one₀ hp (by norm_num at h; linarith)⟩
  · simp only [Legacy.PredictionEngine.calculate_alpha]
    split_ifs with h h'
    · exact le_refl _
    · linarith
    · exact le_trans (pow_le_one₀ hp (by norm_num at h; linarith)) (by norm_num)
    · exact pow_le_pow_left₀ hp hple 2
  · intro h10
    simp only [Legacy.PredictionEngine.calculate_alpha]
    rw [max_eq_left h10, max_eq_left (le_refl 10)]
  · exact min_le_left _ _

/-- C10 witness: alpha properties at 5 then 12 minutes against a 20-minute
average. -/
theorem c10_alpha_properties_witness :
    ((0 : ℝ) ≤ Legacy.PredictionEngine.calculate_alpha 5 20 ∧
      Legacy.PredictionEngine.calculate_alpha 5 20 ≤ 1) ∧
    Legacy.PredictionEngine.calculate_alpha 5 20 ≤
      Legacy.PredictionEngine.calculate_alpha 12 20 ∧
    ((20 : ℝ) ≤ 10 →
      Legacy.PredictionEngine.calculate_alpha 5 20 =
        Legacy.PredictionEngine.calculate_alpha 5 10) ∧
    Legacy.Poller.alpha 5 20 ≤ 0.95 :=
  c10_alpha_properties 5 12 20 (by norm_num) (by norm_num)

/-! ## Trigger evaluator lemmas -/

/-- The refined interval always satisfies low ≤ high (the upper bound is
clamped to the lower bound). -/
theorem lib_range_le_high (pfs sigma minutes_played avg_minutes current_stat : ℝ) :
    (Lib.PredictionEngine.get_prediction_range pfs sigma minutes_played avg_minutes
      current_stat).1 ≤
    (Lib.PredictionEngine.get_prediction_range pfs sigma minutes_played avg_minutes
      current_stat).2.1 := by
  simp only [Lib.PredictionEngine.get_prediction_range]
  exact le_max_right _ _

/-- The refined poller's `_check_trigger` obeys the dedup discipline: the set
never shrinks, and an emission happens only for a key not in the set, which
is then inserted. -/
theorem lib_check_trigger_stepOk : StepOk Lib.Poller.check_trigger := by
  intro s inp
  simp only [Lib.Poller.check_trigger]
  split_ifs with hmem <;>
    first
      | exact ⟨subset_rfl, by simp⟩
      | (refine ⟨Finset.subset_insert _ _, ?_⟩
         intro e he
         simp only [Option.some.injEq] at he
         cases he
         exact ⟨hmem, rfl⟩)

/-- The legacy poller's `_check_trigger` obeys the same dedup discipline. -/
theorem legacy_check_trigger_stepOk : StepOk Legacy.Poller.check_trigger := by
  intro s inp
  simp only [Legacy.Poller.check_trigger]
  split_ifs with hmem <;>
    first
      | exact ⟨subset_rfl, by simp⟩
      | (refine ⟨Finset.subset_insert _ _, ?_⟩
         intro e he
         simp only [Option.some.injEq] at he
         cases he
         exact ⟨hmem, rfl⟩)

/-- Along any run of a dedup-disciplined step the alerted set only grows. -/
theorem run_triggers_subset
    (step : Finset String → CheckInput → Finset String × Option Emission)
    (hstep : StepOk step) :
    ∀ (l : List CheckInput) (s : Finset String), s ⊆ (run_triggers step s l).1 := by
  intro l
  induction l with
  | nil => intro s; simp [run_triggers]
  | cons inp rest ih =>
    intro s
    simp only [run_triggers]
    exact ((hstep s inp).1).trans (ih (step s inp).1)

/-- A key already in the dedup set is never emitted along a run of a
dedup-disciplined step. -/
theorem run_triggers_countP_zero
    (step : Finset String → CheckInput → Finset String × Option Emission)
    (hstep : StepOk step) (k : String) :
    ∀ (l : List CheckInput) (s : Finset String), k ∈ s →
      ((run_triggers step s l).2.countP (fun e => e.key == k)) = 0 := by
  intro l
  induction l with
  | nil => intro s _; simp [run_triggers]
  | cons inp rest ih =>
    intro s hk
    simp only [run_triggers, List.countP_append]
    have hsub := (hstep s inp).1
    rcases heo : (step s inp).2 with _ | e
    · simp only [heo, Option.toList_none, List.countP_nil, zero_add]
      exact ih (step s inp).1 (hsub hk)
    · obtain ⟨hnot, _⟩ := (hstep s inp).2 e heo
      have hkey : (e.key == k) = false := by
        simp only [beq_eq_false_iff_ne]
        intro hkk
        exact hnot (hkk ▸ hk)
      simp [heo, hkey, ih (step s inp).1 (hsub hk)]

/-- Along any run of a dedup-disciplined step, any key is emitted at most
once. -/
theorem run_triggers_countP_le_one
    (step : Finset String → CheckInput → Finset String × Option Emission)
    (hstep : StepOk step) (k : String) :
    ∀ (l : List CheckInput) (s : Finset String),
      ((run_triggers step s l).2.countP (fun e => e.key == k)) ≤ 1 := by
  intro l
  induction l with
  | nil => intro s; simp [run_triggers]
  | cons inp rest ih =>
    intro s
    simp only [run_triggers, List.countP_append]
    rcases heo : (step s inp).2 with _ | e
    · simpa using ih (step s inp).1
    · obtain ⟨_, hins⟩ := (hstep s inp).2 e heo
      by_cases hk : e.key = k
      · have h0 : ((run_triggers step (step s inp).1 rest).2.countP
            (fun e => e.key == k)) = 0 := by
          refine run_triggers_countP_zero step hstep k rest (step s inp).1 ?_
          rw [hins, ← hk]
          exact Finset.mem_insert_self _ _
        simp [heo, hk, h0]
      · have hkey : (e.key == k) = false := by
          simp only [beq_eq_false_iff_ne]
          exact hk
        simpa [heo, hkey] using ih (step s inp).1

/-! ## Claim C2 -/

/-- C2: along any sequence of trigger evaluations within one Monitor
lifetime, every AlertKey is carried by at most one emitted alert, and the
per-Monitor dedup set only grows — in the refined poller as well as in the
legacy poller. -/
theorem c2_alertkey_fires_at_most_once (s : Finset String) (l : List CheckInput)
    (k : String) :
    (((run_triggers Lib.Poller.check_trigger s l).2.countP
        (fun e => e.key == k)) ≤ 1 ∧
      s ⊆ (run_triggers Lib.Poller.check_trigger s l).1) ∧
    (((run_triggers Legacy.Poller.check_trigger s l).2.countP
        (fun e => e.key == k)) ≤ 1 ∧
      s ⊆ (run_triggers Legacy.Poller.check_trigger s l).1) :=
  ⟨⟨run_triggers_countP_le_one _ lib_check_trigger_stepOk k l s,
    run_triggers_subset _ lib_check_trigger_stepOk l s⟩,
   ⟨run_triggers_countP_le_one _ legacy_check_trigger_stepOk k l s,
    run_triggers_subset _ legacy_check_trigger_stepOk l s⟩⟩

/-! ## Claim C3 -/

/-- C3 (amended): in `_check_trigger` the dedup-set insertion runs only
after the notifier call returns.  When the call returns normally the fired
key is recorded; when the call raises, the dedup set is left unchanged, and
the very same evaluation would fire again — so a delivery failure CAN cause
a duplicate alert for the same key within one Monitor lifetime, contrary to
the claim's "added unconditionally once fired". -/
theorem c3_delivery_failure_skips_dedup (alerted : Finset String) (inp : CheckInput)
    (e : Emission)
    (hfail : (Lib.Poller.check_trigger_exc false alerted inp).2 = some e) :
    (Lib.Poller.check_trigger_exc false alerted inp).1 = alerted ∧
    (Lib.Poller.check_trigger_exc true alerted inp).2 = some e ∧
    (Lib.Poller.check_trigger_exc true alerted inp).1 = insert e.key alerted := by
  simp only [Lib.Poller.check_trigger_exc] at hfail ⊢
  split_ifs at hfail ⊢ <;>
    (simp only [Option.some.injEq] at hfail
     subst hfail
     simp_all)

/-- C3 witness: a concrete firing evaluation (PTS, projection 30 against
threshold 8 and buffer 1) with raising delivery leaves the dedup set empty,
while the same evaluation with working delivery emits the alert and records
the key. -/
theorem c3_delivery_failure_skips_dedup_witness :
    (Lib.Poller.check_trigger_exc false ∅
      ⟨"p1", "PTS", 30, 2, 20, 30, 3, 10, 0⟩).1 = ∅ ∧
    (Lib.Poller.check_trigger_exc true ∅
      ⟨"p1", "PTS", 30, 2, 20, 30, 3, 10, 0⟩).2 =
      some ⟨alert_key "p1" "PTS" 3, "HIGH", 30, 30⟩ ∧
    (Lib.Poller.check_trigger_exc true ∅
      ⟨"p1", "PTS", 30, 2, 20, 30, 3, 10, 0⟩).1 =
      insert (Emission.key ⟨alert_key "p1" "PTS" 3, "HIGH", 30, 30⟩) ∅ :=
  c3_delivery_failure_skips_dedup ∅ ⟨"p1", "PTS", 30, 2, 20, 30, 3, 10, 0⟩
    ⟨alert_key "p1" "PTS" 3, "HIGH", 30, 30⟩
    (by norm_num [Lib.Poller.check_trigger_exc,
      Lib.PredictionEngine.get_prediction_range, alert_key, BUFFER_PTS,
      Real.sqrt_zero, max_def])

/-- C3 counterexample: this firing evaluation attempts delivery (the
notifier call is reached with the HIGH alert), yet with a raising notifier
the key is NOT added to the dedup set — the set stays empty — refuting "the
key is added to the dedup set unconditionally, even if delivery fails". -/
theorem c3_failed_delivery_counterexample :
    (Lib.Poller.check_trigger_exc false ∅
      ⟨"p2", "PTS", 30, 2, 20, 30, 3, 10, 0⟩).2 =
      some ⟨alert_key "p2" "PTS" 3, "HIGH", 30, 30⟩ ∧
    (Lib.Poller.check_trigger_exc false ∅
      ⟨"p2", "PTS", 30, 2, 20, 30, 3, 10, 0⟩).1 = ∅ := by
  norm_num [Lib.Poller.check_trigger_exc,
    Lib.PredictionEngine.get_prediction_range, alert_key, BUFFER_PTS,
    Real.sqrt_zero, max_def]

/-! ## Claim C8 -/

/-- C8: for a (participant, statType, period) key not yet fired, the refined
trigger fires HIGH exactly when `low > T + B`, and fires LOW exactly when
`high < T − B` and more than 40% of the participant's average minutes have
been played, where `T = max(staticFloor[stat], 0.8 · seasonAverage)` and `B`
is the per-statistic confirmation buffer; the legacy trigger only ever emits
HIGH alerts. -/
theorem c8_trigger_conditions (alerted : Finset String) (inp : CheckInput)
    (hkey : alert_key inp.player_id inp.stat_type inp.period ∉ alerted)
    (hstat : inp.stat_type = "PTS" ∨ inp.stat_type = "REB" ∨ inp.stat_type = "AST") :
    (((Lib.Poller.check_trigger alerted inp).2 =
        some ⟨alert_key inp.player_id inp.stat_type inp.period, "HIGH",
          (Lib.PredictionEngine.get_prediction_range inp.pfs inp.sigma inp.minutes
            inp.player_avg_minutes inp.current_val).1,
          (Lib.PredictionEngine.get_prediction_range inp.pfs inp.sigma inp.minutes
            inp.player_avg_minutes inp.current_val).2.1⟩ ↔
      (Lib.PredictionEngine.get_prediction_range inp.pfs inp.sigma inp.minutes
          inp.player_avg_minutes inp.current_val).1 >
        max (static_floor inp.stat_type) (0.8 * inp.season_avg) +
          buffer_of inp.stat_type) ∧
     ((Lib.Poller.check_trigger alerted inp).2 =
        some ⟨alert_key inp.player_id inp.stat_type inp.period, "LOW",
          (Lib.PredictionEngine.get_prediction_range inp.pfs inp.sigma inp.minutes
            inp.player_avg_minutes inp.current_val).1,
          (Lib.PredictionEngine.get_prediction_range inp.pfs inp.sigma inp.minutes
            inp.player_avg_minutes inp.current_val).2.1⟩ ↔
      ((Lib.PredictionEngine.get_prediction_range inp.pfs inp.sigma inp.minutes
          inp.player_avg_minutes inp.current_val).2.1 <
        max (static_floor inp.stat_type) (0.8 * inp.season_avg) -
          buffer_of inp.stat_type ∧
        inp.minutes > inp.player_avg_minutes * 0.4))) ∧
    (∀ e, (Legacy.Poller.check_trigger alerted inp).2 = some e →
      e.direction = "HIGH") := by
  obtain ⟨pid, stat, pfs1, sg, cv, mins, per, savg, pavg⟩ := inp
  simp only [] at hkey hstat ⊢
  have hlh := lib_range_le_high pfs1 sg mins pavg cv
  constructor
  · rcases hstat with h | h | h <;> subst h <;>
      simp only [Lib.Poller.check_trigger, static_floor, buffer_of,
        String.reduceEq, reduceIte] <;>
      rw [max_comm (savg * 0.8), mul_comm savg 0.8, if_neg hkey] <;>
      (split_ifs with hH hL
       · refine ⟨iff_of_true rfl hH, iff_of_false (by simp) ?_⟩
         rintro ⟨hc, -⟩
         have hB1 : (0 : ℝ) ≤ BUFFER_PTS := by norm_num [BUFFER_PTS]
         have hB2 : (0 : ℝ) ≤ BUFFER_REB := by norm_num [BUFFER_REB]
         have hB3 : (0 : ℝ) ≤ BUFFER_AST := by norm_num [BUFFER_AST]
         linarith
       · exact ⟨iff_of_false (by simp) hH, iff_of_true rfl hL⟩
       · exact ⟨iff_of_false (by simp) hH, iff_of_false (by simp) hL⟩)
  · intro e he
    simp only [Legacy.Poller.check_trigger] at he
    split_ifs at he <;>
      first
        | exact Option.noConfusion he
        | (simp only [Option.some.injEq] at he
           cases he
           rfl)

/-- C8 witness: the PTS trigger at projection range collapsed to [30, 30]
against season average 10 (threshold 8, buffer 1), key not yet fired. -/
theorem c8_trigger_conditions_witness :
    (((Lib.Poller.check_trigger ∅ ⟨"p1", "PTS", 30, 2, 20, 30, 3, 10, 0⟩).2 =
        some ⟨alert_key "p1" "PTS" 3, "HIGH",
          (Lib.PredictionEngine.get_prediction_range 30 2 30 0 20).1,
          (Lib.PredictionEngine.get_prediction_range 30 2 30 0 20).2.1⟩ ↔
      (Lib.PredictionEngine.get_prediction_range 30 2 30 0 20).1 >
        max (static_floor "PTS") (0.8 * 10) + buffer_of "PTS") ∧
     ((Lib.Poller.check_trigger ∅ ⟨"p1", "PTS", 30, 2, 20, 30, 3, 10, 0⟩).2 =
        some ⟨alert_key "p1" "PTS" 3, "LOW",
          (Lib.PredictionEngine.get_prediction_range 30 2 30 0 20).1,
          (Lib.PredictionEngine.get_prediction_range 30 2 30 0 20).2.1⟩ ↔
      ((Lib.PredictionEngine.get_prediction_range 30 2 30 0 20).2.1 <
        max (static_floor "PTS") (0.8 * 10) - buffer_of "PTS" ∧
        (30 : ℝ) > (0 : ℝ) * 0.4))) ∧
    (∀ e, (Legacy.Poller.check_trigger ∅
        ⟨"p1", "PTS", 30, 2, 20, 30, 3, 10, 0⟩).2 = some e →
      e.direction = "HIGH") :=
  c8_trigger_conditions ∅ ⟨"p1", "PTS", 30, 2, 20, 30, 3, 10, 0⟩
    (by simp) (Or.inl rfl)

end Buddard
